import Mathlib

/-!
Shallow embedding of the repository langgraph-multi-tools (files tool.py and
model.py): four LangChain-style tools (WeatherTool, WeatherForecastTool,
HotelTool, CurrencyConverterTool).  Each tool reads one API key from the
environment at construction time; its synchronous entry point performs one
HTTP GET, parses the JSON response, and formats a result; every exception
inside the request/parse block is caught and re-raised as a RuntimeError, and
the asynchronous entry point always raises NotImplementedError.

JSON values decoded by the response are modelled by the type Json; Python
exceptions raised inside the try block are modelled by Except String (the
string is the rendered exception text); the exceptions a tool itself raises
are modelled by PyErr.  The network is a function from URL to either a decoded
JSON body or an exception text; each run returns its result together with the
list of URLs it requested.
-/

/-- A JSON value as decoded by the Python json module. -/
inductive Json where
  | null
  | bool (b : Bool)
  | num (n : Int)
  | str (s : String)
  | arr (elems : List Json)
  | obj (fields : List (String × Json))

/-- Rendering of an atomic decoded-JSON value as interpolated by a Python
f-string (via str).  The tools only ever interpolate strings and numbers. -/
def Json.render : Json → String
  | .null => "None"
  | .bool true => "True"
  | .bool false => "False"
  | .num n => toString n
  | .str s => s
  | .arr _ => "[...]"
  | .obj _ => "\x7b...\x7d"

/-- Subscripting d[k] on a decoded-JSON value: a dict lookup that raises
KeyError k (whose str() is the key between single quotes) when the key is
absent, and a TypeError when the value is not a dict. -/
def Json.getKey : Json → String → Except String Json
  | .obj kvs, k =>
    match kvs.find? (fun kv => kv.1 == k) with
    | some kv => .ok kv.2
    | none => .error ("\x27" ++ k ++ "\x27")
  | _, _ => .error "TypeError: object is not subscriptable"

/-- Truth-value testing (the test `if not hotels`) on a decoded-JSON value:
None, False, 0, the empty string, the empty list and the empty dict are
falsy. -/
def Json.falsy : Json → Bool
  | .null => true
  | .bool b => !b
  | .num n => n == 0
  | .str s => s == ""
  | .arr elems => elems.isEmpty
  | .obj fields => fields.isEmpty

/-- Iteration (`for x in v`): lists yield their elements, dicts their keys,
strings their characters; other values raise TypeError. -/
def Json.iter : Json → Except String (List Json)
  | .arr elems => .ok elems
  | .obj kvs => .ok (kvs.map (fun kv => Json.str kv.1))
  | .str s => .ok (s.data.map (fun c => Json.str (String.singleton c)))
  | _ => .error "TypeError: object is not iterable"

/-- Comparison `v <= budget` where budget is an int: numbers compare as
themselves, booleans as 0/1, everything else raises TypeError. -/
def Json.asInt : Json → Except String Int
  | .num n => .ok n
  | .bool b => .ok (if b then 1 else 0)
  | _ => .error "TypeError: comparison not supported"

/-- Exceptions a tool itself raises: ValueError at construction, RuntimeError
for wrapped run failures, NotImplementedError from the async entry point. -/
inductive PyErr where
  | valueError (msg : String)
  | runtimeError (msg : String)
  | notImplementedError (msg : String)
deriving DecidableEq, Repr

/-- Model of the network: maps a URL to the decoded JSON body of the
response, or to the rendered text of the exception the request or the JSON
decoding raised. -/
def Http : Type := String → Except String Json

/-- Embedding of the catch-all `except Exception as e` followed by
`raise RuntimeError(prefix + str(e))` that ends the run of every tool. -/
def wrapErr (prefixMsg : String) : Except String α → Except PyErr α
  | .ok a => .ok a
  | .error e => .error (.runtimeError (prefixMsg ++ e))

/-- Embedding of `city.split(sep)[0]` on the underlying character list: the
characters before the first separator (the whole list when the separator is
absent). -/
def beforeSep (sep : Char) : List Char → List Char
  | [] => []
  | c :: cs => if c = sep then [] else c :: beforeSep sep cs

/-- Embedding of the statement `city = city.split(",")[0]` every
city-taking tool performs: keep only the part before the first comma. -/
def normalizeCity (city : String) : String := String.mk (beforeSep ',' city.data)

/-- Embedding of `os.getenv(name)` followed by the falsiness check that
raises ValueError: the credential load every tool constructor performs.
Both an unset variable (None) and an empty string are rejected. -/
def getenvKey (env : String → Option String) (name : String) : Except PyErr String :=
  match env name with
  | none => .error (.valueError (name ++ " environment variable is not set."))
  | some k =>
    if k = "" then .error (.valueError (name ++ " environment variable is not set."))
    else .ok k

/-! ## WeatherTool -/

/-- A constructed WeatherTool instance: holds the loaded key. -/
structure WeatherTool where
  key : String

/-- Constructor of WeatherTool: loads WEATHER_API_KEY, failing with
ValueError when it is unset or empty. -/
def WeatherTool.init (env : String → Option String) : Except PyErr WeatherTool :=
  (getenvKey env "WEATHER_API_KEY").map WeatherTool.mk

/-- URL of the GET request the WeatherTool run performs. -/
def weatherUrl (key city : String) : String :=
  "https://api.weatherapi.com/v1/current.json?key=" ++ key ++ "&q=" ++ city ++ "&aqi=yes"

/-- Body of the try block of the WeatherTool run after the request: the
fields current.temp_c and current.condition.text of the response interpolated
into the result sentence. -/
def weatherBody (fetched : Except String Json) (city : String) : Except String String :=
  match fetched with
  | .error e => .error e
  | .ok response =>
    match response.getKey "current" with
    | .error e => .error e
    | .ok current =>
      match current.getKey "temp_c" with
      | .error e => .error e
      | .ok temp =>
        match current.getKey "condition" with
        | .error e => .error e
        | .ok condition =>
          match condition.getKey "text" with
          | .error e => .error e
          | .ok condText =>
            .ok ("The current weather in " ++ city ++ " is " ++ temp.render ++
              "°C with " ++ condText.render ++ ".")

/-- Synchronous run of WeatherTool: normalizes the city, performs one GET,
formats the sentence; any exception is wrapped into a RuntimeError whose
message is "Failed to fetch weather for ", the city, ": " and the cause.
Returns the result together with the list of requested URLs. -/
def WeatherTool.run (t : WeatherTool) (http : Http) (city0 : String) :
    Except PyErr String × List String :=
  let city := normalizeCity city0
  let url := weatherUrl t.key city
  (wrapErr ("Failed to fetch weather for " ++ city ++ ": ") (weatherBody (http url) city),
   [url])

/-- Asynchronous entry point of WeatherTool: always raises
NotImplementedError, touching no network. -/
def WeatherTool.arun (_t : WeatherTool) (_http : Http) (_args : List Json) :
    Except PyErr String × List String :=
  (.error (.notImplementedError "Async not supported."), [])

/-! ## WeatherForecastTool -/

/-- A constructed WeatherForecastTool instance. -/
structure WeatherForecastTool where
  key : String

/-- Constructor of WeatherForecastTool: loads WEATHER_API_KEY. -/
def WeatherForecastTool.init (env : String → Option String) : Except PyErr WeatherForecastTool :=
  (getenvKey env "WEATHER_API_KEY").map WeatherForecastTool.mk

/-- URL of the GET request the WeatherForecastTool run performs. -/
def forecastUrl (key city : String) (days : Int) : String :=
  "https://api.weatherapi.com/v1/forecast.json?key=" ++ key ++ "&q=" ++ city ++
    "&days=" ++ toString days ++ "&aqi=yes"

/-- Clause built for one forecast-day entry fc: the literal pattern
"On: ", fc date, ", max temp: ", day maxtemp_c, "°C, min temp: ",
day mintemp_c, "°C, condition: ", day condition text. -/
def forecastClause (fc : Json) : Except String String :=
  match fc.getKey "date" with
  | .error e => .error e
  | .ok date =>
    match fc.getKey "day" with
    | .error e => .error e
    | .ok day =>
      match day.getKey "maxtemp_c" with
      | .error e => .error e
      | .ok mx =>
        match day.getKey "mintemp_c" with
        | .error e => .error e
        | .ok mn =>
          match day.getKey "condition" with
          | .error e => .error e
          | .ok condition =>
            match condition.getKey "text" with
            | .error e => .error e
            | .ok condText =>
              .ok ("On: " ++ date.render ++ ", max temp: " ++ mx.render ++
                "°C, min temp: " ++ mn.render ++ "°C, condition: " ++ condText.render)

/-- Embedding of the loop `for fc in forecast: res.append(...)`: builds the
clause of each entry in order, propagating the first exception. -/
def forecastClauses : List Json → Except String (List String)
  | [] => .ok []
  | fc :: rest =>
    match forecastClause fc with
    | .error e => .error e
    | .ok c =>
      match forecastClauses rest with
      | .error e => .error e
      | .ok cs => .ok (c :: cs)

/-- Body of the try block of the WeatherForecastTool run after the request:
extract forecast.forecastday, run the clause loop, join with ". ". -/
def forecastBody (fetched : Except String Json) : Except String String :=
  match fetched with
  | .error e => .error e
  | .ok response =>
    match response.getKey "forecast" with
    | .error e => .error e
    | .ok forecastVal =>
      match forecastVal.getKey "forecastday" with
      | .error e => .error e
      | .ok fdays =>
        match fdays.iter with
        | .error e => .error e
        | .ok fcs =>
          match forecastClauses fcs with
          | .error e => .error e
          | .ok clauses => .ok (String.intercalate ". " clauses)

/-- Synchronous run of WeatherForecastTool: normalizes the city, performs one
GET, formats the joined clauses; any exception is wrapped into a RuntimeError
whose message is "Failed to fetch forecast for ", the city, ": " and the
cause. -/
def WeatherForecastTool.run (t : WeatherForecastTool) (http : Http) (city0 : String)
    (days : Int) : Except PyErr String × List String :=
  let city := normalizeCity city0
  let url := forecastUrl t.key city days
  (wrapErr ("Failed to fetch forecast for " ++ city ++ ": ") (forecastBody (http url)),
   [url])

/-- Asynchronous entry point of WeatherForecastTool: always raises
NotImplementedError. -/
def WeatherForecastTool.arun (_t : WeatherForecastTool) (_http : Http) (_args : List Json) :
    Except PyErr String × List String :=
  (.error (.notImplementedError "Async not supported."), [])

/-! ## HotelTool -/

/-- A constructed HotelTool instance. -/
structure HotelTool where
  key : String

/-- Constructor of HotelTool: loads SERP_API_KEY. -/
def HotelTool.init (env : String → Option String) : Except PyErr HotelTool :=
  (getenvKey env "SERP_API_KEY").map HotelTool.mk

/-- URL of the GET request the HotelTool run performs. -/
def hotelUrl (key city check_in check_out : String) (num_of_adults : Int)
    (currency : String) : String :=
  "https://serpapi.com/search.json?engine=google_hotels&q=" ++ city ++
    "&check_in_date=" ++ check_in ++ "&check_out_date=" ++ check_out ++
    "&adults=" ++ toString num_of_adults ++ "&currency=" ++ currency ++
    "&gl=us&hl=en&api_key=" ++ key

/-- Embedding of the loop that keeps the hotels whose extracted_price is at
most the budget, in order, propagating the first exception. -/
def filterBudget (budget : Int) : List Json → Except String (List Json)
  | [] => .ok []
  | hotel :: rest =>
    match (hotel.getKey "extracted_price").bind Json.asInt with
    | .error e => .error e
    | .ok price =>
      match filterBudget budget rest with
      | .error e => .error e
      | .ok res => .ok (if price ≤ budget then hotel :: res else res)

/-- Price of a hotel entry, defaulting to 0 when the entry has no readable
extracted_price: used to state the budget filter as a pure list filter. -/
def extractedPriceD (hotel : Json) : Int :=
  (((hotel.getKey "extracted_price").bind Json.asInt).toOption).getD 0

/-- Body of the try block of the HotelTool run after the request:
`hotels = response["ads"]`, then `if not hotels: return []`, then
`if budget:` filter the hotels by price, `else:` pass the value through. -/
def hotelBody (fetched : Except String Json) (budget : Int) : Except String Json :=
  match fetched with
  | .error e => .error e
  | .ok response =>
    match response.getKey "ads" with
    | .error e => .error e
    | .ok hotels =>
      if hotels.falsy then .ok (Json.arr [])
      else if budget ≠ 0 then
        match hotels.iter with
        | .error e => .error e
        | .ok hs =>
          match filterBudget budget hs with
          | .error e => .error e
          | .ok res => .ok (Json.arr res)
      else .ok hotels

/-- Synchronous run of HotelTool: normalizes the city, performs one GET,
extracts and filters the ads list; any exception is wrapped into a
RuntimeError whose message is "Failed to fetch hotels for ", the city, ": "
and the cause. -/
def HotelTool.run (t : HotelTool) (http : Http) (city0 check_in check_out : String)
    (num_of_adults : Int) (currency : String) (budget : Int) :
    Except PyErr Json × List String :=
  let city := normalizeCity city0
  let url := hotelUrl t.key city check_in check_out num_of_adults currency
  (wrapErr ("Failed to fetch hotels for " ++ city ++ ": ") (hotelBody (http url) budget),
   [url])

/-- Asynchronous entry point of HotelTool: always raises
NotImplementedError. -/
def HotelTool.arun (_t : HotelTool) (_http : Http) (_args : List Json) :
    Except PyErr Json × List String :=
  (.error (.notImplementedError "Async not supported."), [])

/-! ## CurrencyConverterTool -/

/-- A constructed CurrencyConverterTool instance. -/
structure CurrencyConverterTool where
  key : String

/-- Constructor of CurrencyConverterTool: loads CURRENCY_API_KEY. -/
def CurrencyConverterTool.init (env : String → Option String) :
    Except PyErr CurrencyConverterTool :=
  (getenvKey env "CURRENCY_API_KEY").map CurrencyConverterTool.mk

/-- URL of the GET request the CurrencyConverterTool run performs. -/
def currencyUrl (key currency base_currency : String) : String :=
  "https://api.freecurrencyapi.com/v1/latest?apikey=" ++ key ++ "&currencies=" ++
    currency ++ "&base_currency=" ++ base_currency

/-- Body of the try block of the CurrencyConverterTool run after the
request: `return response["data"][currency]`. -/
def currencyBody (fetched : Except String Json) (currency : String) : Except String Json :=
  match fetched with
  | .error e => .error e
  | .ok response =>
    match response.getKey "data" with
    | .error e => .error e
    | .ok dataVal => dataVal.getKey currency

/-- Synchronous run of CurrencyConverterTool: one GET, one extraction; any
exception is wrapped into a RuntimeError whose message is
"Unable to fetch currency conversion rate: " and the cause (no city). -/
def CurrencyConverterTool.run (t : CurrencyConverterTool) (http : Http)
    (base_currency currency : String) : Except PyErr Json × List String :=
  let url := currencyUrl t.key currency base_currency
  (wrapErr "Unable to fetch currency conversion rate: " (currencyBody (http url) currency),
   [url])

/-- Asynchronous entry point of CurrencyConverterTool: always raises
NotImplementedError. -/
def CurrencyConverterTool.arun (_t : CurrencyConverterTool) (_http : Http) (_args : List Json) :
    Except PyErr Json × List String :=
  (.error (.notImplementedError "Async not supported."), [])

/-! ## Concrete networks used by witnesses and counterexamples -/

/-- A network answering every URL with the mocked Paris current-weather
response. -/
def parisHttp : Http := fun _ =>
  .ok (Json.obj [("current", Json.obj
    [("temp_c", Json.num 18), ("condition", Json.obj [("text", Json.str "Cloudy")])])])

/-- A network answering every URL with a response that has no "ads" field. -/
def noAdsHttp : Http := fun _ => .ok (Json.obj [("search_metadata", Json.num 1)])

/-- A network answering every URL with a response whose "ads" field is the
empty list. -/
def emptyAdsHttp : Http := fun _ => .ok (Json.obj [("ads", Json.arr [])])

/-- A network on which every request raises an exception rendered "boom". -/
def failHttp : Http := fun _ => .error "boom"

/-- Three hotel entries priced 50, 100 and 150. -/
def hotelsAds : List Json :=
  [Json.obj [("name", Json.str "A"), ("extracted_price", Json.num 50)],
   Json.obj [("name", Json.str "B"), ("extracted_price", Json.num 100)],
   Json.obj [("name", Json.str "C"), ("extracted_price", Json.num 150)]]

/-- A network answering every URL with a response whose "ads" field holds
the three entries of hotelsAds. -/
def hotelsHttp : Http := fun _ => .ok (Json.obj [("ads", Json.arr hotelsAds)])

/-- A network answering every URL with a two-day forecast response. -/
def forecastTwoDaysHttp : Http := fun _ =>
  .ok (Json.obj [("forecast", Json.obj [("forecastday", Json.arr
    [Json.obj [("date", Json.str "2025-01-01"), ("day", Json.obj
       [("maxtemp_c", Json.num 10), ("mintemp_c", Json.num 2),
        ("condition", Json.obj [("text", Json.str "Sunny")])])],
     Json.obj [("date", Json.str "2025-01-02"), ("day", Json.obj
       [("maxtemp_c", Json.num 8), ("mintemp_c", Json.num 1),
        ("condition", Json.obj [("text", Json.str "Rain")])])]])])])

/-- A network answering every URL with a forecast response whose
forecastday list is empty. -/
def emptyForecastHttp : Http := fun _ =>
  .ok (Json.obj [("forecast", Json.obj [("forecastday", Json.arr [])])])

/-! ## Helper lemmas -/

/-- The before-first-separator function is takeWhile of not-the-separator. -/
theorem beforeSep_eq_takeWhile (sep : Char) (l : List Char) :
    beforeSep sep l = l.takeWhile (fun c => c != sep) := by
  induction l with
  | nil => rfl
  | cons c cs ih =>
    by_cases h : c = sep
    · simp [beforeSep, List.takeWhile, h]
    · have hb : (c != sep) = true := bne_iff_ne.mpr h
      simp [beforeSep, List.takeWhile, h, ih, hb]

/-- A missing or empty environment variable makes the credential load fail
with the ValueError of the source. -/
theorem getenvKey_missing (env : String → Option String) (name : String)
    (h : env name = none ∨ env name = some "") :
    getenvKey env name = .error (.valueError (name ++ " environment variable is not set.")) := by
  rcases h with h | h <;> simp [getenvKey, h]

/-- A successful credential load never returns the empty string. -/
theorem getenvKey_ok_ne (env : String → Option String) (name k : String)
    (h : getenvKey env name = .ok k) : k ≠ "" := by
  cases he : env name with
  | none => simp [getenvKey, he] at h
  | some v =>
    by_cases hv : v = ""
    · simp [getenvKey, he, hv] at h
    · simp [getenvKey, he, hv] at h
      subst h
      exact hv

/-- When every entry has a readable price, the budget loop equals the pure
list filter by extractedPriceD. -/
theorem filterBudget_eq_filter (budget : Int) (hs : List Json)
    (wf : ∀ h ∈ hs, ∃ p, (h.getKey "extracted_price").bind Json.asInt = .ok p) :
    filterBudget budget hs = .ok (hs.filter (fun h => extractedPriceD h ≤ budget)) := by
  induction hs with
  | nil => rfl
  | cons a l ih =>
    obtain ⟨p, hp⟩ := wf a (List.mem_cons_self a l)
    have hrest := ih (fun h hm => wf h (List.mem_cons_of_mem a hm))
    have hpd : extractedPriceD a = p := by
      simp [extractedPriceD, hp, Except.toOption]
    simp only [filterBudget, hp, hrest, List.filter_cons, hpd]
    by_cases hple : p ≤ budget
    · simp [hple]
    · simp [hple]

/-- The clause loop produces one clause per forecast-day entry. -/
theorem forecastClauses_length (fcs : List Json) (clauses : List String)
    (h : forecastClauses fcs = .ok clauses) : clauses.length = fcs.length := by
  induction fcs generalizing clauses with
  | nil =>
    unfold forecastClauses at h
    injection h with h
    subst h
    rfl
  | cons a l ih =>
    unfold forecastClauses at h
    cases hc : forecastClause a with
    | error e => rw [hc] at h; exact Except.noConfusion h
    | ok c =>
      rw [hc] at h
      cases hrest : forecastClauses l with
      | error e => rw [hrest] at h; exact Except.noConfusion h
      | ok cs =>
        rw [hrest] at h
        injection h with h
        subst h
        simp [ih cs hrest]

/-! ## Claim theorems -/

/-- C5: on success, WeatherTool returns the sentence "The current weather in
{city} is {temp_c}°C with {condition}." built from the normalized
before-first-comma city name and the current.temp_c and current.condition.text
fields of the response; in particular, with city "Paris, France" and upstream
temp_c 18, condition text "Cloudy", the result is exactly
"The current weather in Paris is 18°C with Cloudy." (the witness). -/
theorem weatherRun_success (t : WeatherTool) (http : Http) (city : String)
    (resp current temp condition condText : Json)
    (hresp : http (weatherUrl t.key (normalizeCity city)) = .ok resp)
    (hcur : resp.getKey "current" = .ok current)
    (htemp : current.getKey "temp_c" = .ok temp)
    (hcond : current.getKey "condition" = .ok condition)
    (htext : condition.getKey "text" = .ok condText) :
    (WeatherTool.run t http city).1 =
      .ok ("The current weather in " ++ normalizeCity city ++ " is " ++ temp.render ++
        "°C with " ++ condText.render ++ ".") := by
  simp [WeatherTool.run, weatherBody, hresp, hcur, htemp, hcond, htext, wrapErr]

/-- Witness for C5: the mocked Paris scenario evaluated concretely. -/
theorem weatherRun_success_witness :
    (WeatherTool.run ⟨"k"⟩ parisHttp "Paris, France").1 =
      .ok "The current weather in Paris is 18°C with Cloudy." := by
  have h := weatherRun_success ⟨"k"⟩ parisHttp "Paris, France" _ _ _ _ _ rfl rfl rfl rfl rfl
  exact h

/-- C9: for every tool and every argument list, the asynchronous entry point
fails immediately with the NotImplementedError "Async not supported." and
requests no URL (performs no network call). -/
theorem arun_unsupported (tw : WeatherTool) (tf : WeatherForecastTool) (th : HotelTool)
    (tc : CurrencyConverterTool) (http : Http) (args : List Json) :
    WeatherTool.arun tw http args =
        (.error (.notImplementedError "Async not supported."), []) ∧
    WeatherForecastTool.arun tf http args =
        (.error (.notImplementedError "Async not supported."), []) ∧
    HotelTool.arun th http args =
        (.error (.notImplementedError "Async not supported."), []) ∧
    CurrencyConverterTool.arun tc http args =
        (.error (.notImplementedError "Async not supported."), []) :=
  ⟨rfl, rfl, rfl, rfl⟩

/-- C10: when the forecast.forecastday list of the upstream response has zero
entries, WeatherForecastTool returns the empty string (the join of zero
clauses), not an error. -/
theorem forecastRun_emptyDays (t : WeatherForecastTool) (http : Http) (city : String)
    (days : Int) (resp forecastVal : Json)
    (hresp : http (forecastUrl t.key (normalizeCity city) days) = .ok resp)
    (hf : resp.getKey "forecast" = .ok forecastVal)
    (hfd : forecastVal.getKey "forecastday" = .ok (Json.arr [])) :
    (WeatherForecastTool.run t http city days).1 = .ok "" := by
  simp [WeatherForecastTool.run, forecastBody, hresp, hf, hfd, Json.iter,
    forecastClauses, wrapErr, String.intercalate]

/-- Witness for C10: a concrete empty-forecast response. -/
theorem forecastRun_emptyDays_witness :
    (WeatherForecastTool.run ⟨"k"⟩ emptyForecastHttp "Paris" 3).1 = .ok "" := by
  have h := forecastRun_emptyDays ⟨"k"⟩ emptyForecastHttp "Paris" 3 _ _ rfl rfl rfl
  exact h

/-- C3: with budget 0 and a non-empty ads list in the upstream response,
HotelTool returns the full ads list, unfiltered and in original order. -/
theorem hotelRun_zeroBudget (t : HotelTool) (http : Http)
    (city check_in check_out currency : String) (num_of_adults : Int)
    (resp : Json) (hs : List Json)
    (hresp : http (hotelUrl t.key (normalizeCity city) check_in check_out
      num_of_adults currency) = .ok resp)
    (hads : resp.getKey "ads" = .ok (Json.arr hs))
    (hne : hs ≠ []) :
    (HotelTool.run t http city check_in check_out num_of_adults currency 0).1 =
      .ok (Json.arr hs) := by
  have hemp : hs.isEmpty = false := by
    cases hs with
    | nil => exact absurd rfl hne
    | cons a l => rfl
  simp [HotelTool.run, hotelBody, hresp, hads, Json.falsy, hemp, wrapErr]

/-- Witness for C3: three concrete entries pass through unfiltered. -/
theorem hotelRun_zeroBudget_witness :
    (HotelTool.run ⟨"k"⟩ hotelsHttp "Paris" "2025-01-01" "2025-01-02" 2 "USD" 0).1 =
      .ok (Json.arr hotelsAds) := by
  have h := hotelRun_zeroBudget ⟨"k"⟩ hotelsHttp "Paris" "2025-01-01" "2025-01-02" "USD" 2
    _ hotelsAds rfl rfl (by simp [hotelsAds])
  exact h

/-- C6: for every city containing a comma, WeatherTool, WeatherForecastTool
and HotelTool each request exactly one URL, built from only the substring of
the city before the first comma. -/
theorem queryUsesCityBeforeComma (tw : WeatherTool) (tf : WeatherForecastTool)
    (th : HotelTool) (http : Http) (city check_in check_out currency : String)
    (days num_of_adults budget : Int)
    (hc : ',' ∈ city.data) :
    (WeatherTool.run tw http city).2 =
        [weatherUrl tw.key (String.mk (city.data.takeWhile (fun c => c != ',')))] ∧
    (WeatherForecastTool.run tf http city days).2 =
        [forecastUrl tf.key (String.mk (city.data.takeWhile (fun c => c != ','))) days] ∧
    (HotelTool.run th http city check_in check_out num_of_adults currency budget).2 =
        [hotelUrl th.key (String.mk (city.data.takeWhile (fun c => c != ',')))
          check_in check_out num_of_adults currency] := by
  refine ⟨?_, ?_, ?_⟩ <;>
    simp [WeatherTool.run, WeatherForecastTool.run, HotelTool.run, normalizeCity,
      beforeSep_eq_takeWhile]

/-- Witness for C6: the city "Paris, France" is queried as "Paris". -/
theorem queryUsesCityBeforeComma_witness :
    (WeatherTool.run ⟨"k"⟩ parisHttp "Paris, France").2 =
      ["https://api.weatherapi.com/v1/current.json?key=k&q=Paris&aqi=yes"] := by
  have h := queryUsesCityBeforeComma ⟨"k"⟩ ⟨"k"⟩ ⟨"k"⟩ parisHttp "Paris, France"
    "2025-01-01" "2025-01-02" "USD" 1 2 0 (by decide)
  exact h.1

/-- C1 counterexample: with an upstream response that lacks the "ads" field,
HotelTool does not return an empty sequence; it raises the wrapped
RuntimeError carrying the KeyError text, so the claim "absent or empty ads
returns an empty sequence without raising" is false as stated. -/
theorem hotelRun_absentAds_raises :
    (HotelTool.run ⟨"k"⟩ noAdsHttp "c" "2025-01-01" "2025-01-02" 2 "USD" 5).1 =
      .error (.runtimeError "Failed to fetch hotels for c: \x27ads\x27") ∧
    ((HotelTool.run ⟨"k"⟩ noAdsHttp "c" "2025-01-01" "2025-01-02" 2 "USD" 5).1).isOk
      = false :=
  ⟨rfl, rfl⟩

/-- C1 amended: if the "ads" field of the upstream response is present and is
an empty list, HotelTool returns an empty sequence regardless of budget;
if the "ads" field is absent (the lookup raises with text e), the call
raises the wrapped RuntimeError carrying e instead. -/
theorem hotelRun_emptyAds (t : HotelTool) (http : Http)
    (city check_in check_out currency : String) (num_of_adults budget : Int)
    (resp : Json) (e : String)
    (hresp : http (hotelUrl t.key (normalizeCity city) check_in check_out
      num_of_adults currency) = .ok resp) :
    (resp.getKey "ads" = .ok (Json.arr []) →
      (HotelTool.run t http city check_in check_out num_of_adults currency budget).1 =
        .ok (Json.arr [])) ∧
    (resp.getKey "ads" = .error e →
      (HotelTool.run t http city check_in check_out num_of_adults currency budget).1 =
        .error (.runtimeError ("Failed to fetch hotels for " ++ normalizeCity city ++
          ": " ++ e))) := by
  constructor
  · intro hads
    simp [HotelTool.run, hotelBody, hresp, hads, Json.falsy, wrapErr]
  · intro hads
    simp [HotelTool.run, hotelBody, hresp, hads, wrapErr]

/-- Witness for the amended C1: a present-but-empty ads list with a nonzero
budget yields the empty sequence. -/
theorem hotelRun_emptyAds_witness :
    (HotelTool.run ⟨"k"⟩ emptyAdsHttp "c" "2025-01-01" "2025-01-02" 2 "USD" 7).1 =
      .ok (Json.arr []) := by
  have h := hotelRun_emptyAds ⟨"k"⟩ emptyAdsHttp "c" "2025-01-01" "2025-01-02" "USD"
    2 7 _ "x" rfl
  exact h.1 rfl

/-- C2: with budget B greater than 0 and a non-empty ads list whose entries
all carry a readable extracted_price, HotelTool returns exactly the entries
whose extracted_price is at most B, in the original relative order (the
boundary is inclusive: the witness keeps an entry priced exactly B). -/
theorem hotelRun_budgetFilter (t : HotelTool) (http : Http)
    (city check_in check_out currency : String) (num_of_adults budget : Int)
    (resp : Json) (hs : List Json)
    (hbud : 0 < budget)
    (hresp : http (hotelUrl t.key (normalizeCity city) check_in check_out
      num_of_adults currency) = .ok resp)
    (hads : resp.getKey "ads" = .ok (Json.arr hs))
    (hne : hs ≠ [])
    (wf : ∀ h ∈ hs, ∃ p, (h.getKey "extracted_price").bind Json.asInt = .ok p) :
    (HotelTool.run t http city check_in check_out num_of_adults currency budget).1 =
      .ok (Json.arr (hs.filter (fun h => extractedPriceD h ≤ budget))) := by
  have hemp : hs.isEmpty = false := by
    cases hs with
    | nil => exact absurd rfl hne
    | cons a l => rfl
  have hb0 : ¬ budget = 0 := by omega
  simp [HotelTool.run, hotelBody, hresp, hads, Json.falsy, hemp, hb0, Json.iter,
    filterBudget_eq_filter budget hs wf, wrapErr]

/-- Witness for C2: of the entries priced 50, 100 and 150 with budget 100,
exactly the first two are kept, in order — the entry priced exactly 100 is
included. -/
theorem hotelRun_budgetFilter_witness :
    (HotelTool.run ⟨"k"⟩ hotelsHttp "Paris" "2025-01-01" "2025-01-02" 2 "USD" 100).1 =
      .ok (Json.arr
        [Json.obj [("name", Json.str "A"), ("extracted_price", Json.num 50)],
         Json.obj [("name", Json.str "B"), ("extracted_price", Json.num 100)]]) := by
  have h := hotelRun_budgetFilter ⟨"k"⟩ hotelsHttp "Paris" "2025-01-01" "2025-01-02"
    "USD" 2 100 _ hotelsAds (by omega) rfl rfl (by simp [hotelsAds])
    (by
      intro x hx
      simp only [hotelsAds, List.mem_cons, List.not_mem_nil, or_false] at hx
      rcases hx with h1 | h2 | h3
      · exact ⟨50, by rw [h1]; rfl⟩
      · exact ⟨100, by rw [h2]; rfl⟩
      · exact ⟨150, by rw [h3]; rfl⟩)
  rw [h]
  rfl

/-- C4: when the upstream response holds the forecast-day entries fcs and the
clause loop succeeds with the list clauses, the result is exactly those
clauses joined by ". ", there are exactly as many clauses as entries, and the
clause of an entry is exactly the literal pattern "On: {date}, max temp:
{mx}°C, min temp: {mn}°C, condition: {cond}" built from its date,
day.maxtemp_c, day.mintemp_c and day.condition.text fields. -/
theorem forecastRun_clauses (t : WeatherForecastTool) (http : Http) (city : String)
    (days : Int) (resp forecastVal : Json) (fcs : List Json) (clauses : List String)
    (hresp : http (forecastUrl t.key (normalizeCity city) days) = .ok resp)
    (hf : resp.getKey "forecast" = .ok forecastVal)
    (hfd : forecastVal.getKey "forecastday" = .ok (Json.arr fcs))
    (hcl : forecastClauses fcs = .ok clauses) :
    (WeatherForecastTool.run t http city days).1 =
        .ok (String.intercalate ". " clauses) ∧
    clauses.length = fcs.length ∧
    (∀ fc date day mx mn condition condText,
      fc.getKey "date" = .ok date → fc.getKey "day" = .ok day →
      day.getKey "maxtemp_c" = .ok mx → day.getKey "mintemp_c" = .ok mn →
      day.getKey "condition" = .ok condition → condition.getKey "text" = .ok condText →
      forecastClause fc = .ok ("On: " ++ date.render ++ ", max temp: " ++ mx.render ++
        "°C, min temp: " ++ mn.render ++ "°C, condition: " ++ condText.render)) := by
  refine ⟨?_, forecastClauses_length fcs clauses hcl, ?_⟩
  · simp [WeatherForecastTool.run, forecastBody, hresp, hf, hfd, Json.iter, hcl, wrapErr]
  · intro fc date day mx mn condition condText h1 h2 h3 h4 h5 h6
    simp [forecastClause, h1, h2, h3, h4, h5, h6]

/-- Witness for C4: a concrete two-day forecast yields the two clauses joined
by ". ". -/
theorem forecastRun_clauses_witness :
    (WeatherForecastTool.run ⟨"k"⟩ forecastTwoDaysHttp "Paris" 2).1 =
      .ok ("On: 2025-01-01, max temp: 10°C, min temp: 2°C, condition: Sunny. " ++
        "On: 2025-01-02, max temp: 8°C, min temp: 1°C, condition: Rain") := by
  have h := forecastRun_clauses ⟨"k"⟩ forecastTwoDaysHttp "Paris" 2 _ _ _
    ["On: 2025-01-01, max temp: 10°C, min temp: 2°C, condition: Sunny",
     "On: 2025-01-02, max temp: 8°C, min temp: 1°C, condition: Rain"]
    rfl rfl rfl rfl
  exact h.1

/-- C7: every failure inside a run surfaces as the wrapped RuntimeError whose
message is the fixed template of the tool followed by the original error
text — carrying the queried (normalized) city for WeatherTool,
WeatherForecastTool and HotelTool, and no city for CurrencyConverterTool —
never the raw unwrapped exception. -/
theorem runWrapsFailures (tw : WeatherTool) (tf : WeatherForecastTool) (th : HotelTool)
    (tc : CurrencyConverterTool) (http : Http)
    (city check_in check_out currency base_currency targetCurrency : String)
    (days num_of_adults budget : Int) (e : String) :
    (weatherBody (http (weatherUrl tw.key (normalizeCity city))) (normalizeCity city)
        = .error e →
      (WeatherTool.run tw http city).1 =
        .error (.runtimeError ("Failed to fetch weather for " ++ normalizeCity city ++
          ": " ++ e))) ∧
    (forecastBody (http (forecastUrl tf.key (normalizeCity city) days)) = .error e →
      (WeatherForecastTool.run tf http city days).1 =
        .error (.runtimeError ("Failed to fetch forecast for " ++ normalizeCity city ++
          ": " ++ e))) ∧
    (hotelBody (http (hotelUrl th.key (normalizeCity city) check_in check_out
        num_of_adults currency)) budget = .error e →
      (HotelTool.run th http city check_in check_out num_of_adults currency budget).1 =
        .error (.runtimeError ("Failed to fetch hotels for " ++ normalizeCity city ++
          ": " ++ e))) ∧
    (currencyBody (http (currencyUrl tc.key targetCurrency base_currency)) targetCurrency
        = .error e →
      (CurrencyConverterTool.run tc http base_currency targetCurrency).1 =
        .error (.runtimeError ("Unable to fetch currency conversion rate: " ++ e))) := by
  refine ⟨fun h => ?_, fun h => ?_, fun h => ?_, fun h => ?_⟩ <;>
    simp [WeatherTool.run, WeatherForecastTool.run, HotelTool.run,
      CurrencyConverterTool.run, wrapErr, h]

/-- Witness for C7: on a network where every request fails with text "boom",
each of the four tools returns its wrapped RuntimeError built from its own
template and "boom". -/
theorem runWrapsFailures_witness :
    (WeatherTool.run ⟨"k"⟩ failHttp "Paris").1 =
      .error (.runtimeError "Failed to fetch weather for Paris: boom") ∧
    (WeatherForecastTool.run ⟨"k"⟩ failHttp "Paris" 2).1 =
      .error (.runtimeError "Failed to fetch forecast for Paris: boom") ∧
    (HotelTool.run ⟨"k"⟩ failHttp "Paris" "2025-01-01" "2025-01-02" 2 "USD" 0).1 =
      .error (.runtimeError "Failed to fetch hotels for Paris: boom") ∧
    (CurrencyConverterTool.run ⟨"k"⟩ failHttp "USD" "EUR").1 =
      .error (.runtimeError "Unable to fetch currency conversion rate: boom") := by
  have h := runWrapsFailures ⟨"k"⟩ ⟨"k"⟩ ⟨"k"⟩ ⟨"k"⟩ failHttp "Paris"
    "2025-01-01" "2025-01-02" "USD" "USD" "EUR" 2 2 0 "boom"
  exact ⟨h.1 rfl, h.2.1 rfl, h.2.2.1 rfl, h.2.2.2 rfl⟩

/-- C8: for each of the four tools, construction with its credential missing
or empty in the environment fails with the ValueError of the source; and any
successfully constructed instance holds a non-empty key, so a call never
finds the credential missing. -/
theorem toolInit_requiresCredential (env : String → Option String) :
    ((env "WEATHER_API_KEY" = none ∨ env "WEATHER_API_KEY" = some "") →
      WeatherTool.init env =
        .error (.valueError "WEATHER_API_KEY environment variable is not set.")) ∧
    (∀ t : WeatherTool, WeatherTool.init env = .ok t → t.key ≠ "") ∧
    ((env "WEATHER_API_KEY" = none ∨ env "WEATHER_API_KEY" = some "") →
      WeatherForecastTool.init env =
        .error (.valueError "WEATHER_API_KEY environment variable is not set.")) ∧
    (∀ t : WeatherForecastTool, WeatherForecastTool.init env = .ok t → t.key ≠ "") ∧
    ((env "SERP_API_KEY" = none ∨ env "SERP_API_KEY" = some "") →
      HotelTool.init env =
        .error (.valueError "SERP_API_KEY environment variable is not set.")) ∧
    (∀ t : HotelTool, HotelTool.init env = .ok t → t.key ≠ "") ∧
    ((env "CURRENCY_API_KEY" = none ∨ env "CURRENCY_API_KEY" = some "") →
      CurrencyConverterTool.init env =
        .error (.valueError "CURRENCY_API_KEY environment variable is not set.")) ∧
    (∀ t : CurrencyConverterTool, CurrencyConverterTool.init env = .ok t → t.key ≠ "") := by
  refine ⟨?_, ?_, ?_, ?_, ?_, ?_, ?_, ?_⟩
  · intro h
    simp [WeatherTool.init, getenvKey_missing env _ h, Except.map]
  · intro t ht
    unfold WeatherTool.init at ht
    cases hg : getenvKey env "WEATHER_API_KEY" with
    | error er => rw [hg] at ht; exact Except.noConfusion ht
    | ok k =>
      rw [hg] at ht
      simp only [Except.map] at ht
      injection ht with ht
      rw [← ht]
      exact getenvKey_ok_ne env _ k hg
  · intro h
    simp [WeatherForecastTool.init, getenvKey_missing env _ h, Except.map]
  · intro t ht
    unfold WeatherForecastTool.init at ht
    cases hg : getenvKey env "WEATHER_API_KEY" with
    | error er => rw [hg] at ht; exact Except.noConfusion ht
    | ok k =>
      rw [hg] at ht
      simp only [Except.map] at ht
      injection ht with ht
      rw [← ht]
      exact getenvKey_ok_ne env _ k hg
  · intro h
    simp [HotelTool.init, getenvKey_missing env _ h, Except.map]
  · intro t ht
    unfold HotelTool.init at ht
    cases hg : getenvKey env "SERP_API_KEY" with
    | error er => rw [hg] at ht; exact Except.noConfusion ht
    | ok k =>
      rw [hg] at ht
      simp only [Except.map] at ht
      injection ht with ht
      rw [← ht]
      exact getenvKey_ok_ne env _ k hg
  · intro h
    simp [CurrencyConverterTool.init, getenvKey_missing env _ h, Except.map]
  · intro t ht
    unfold CurrencyConverterTool.init at ht
    cases hg : getenvKey env "CURRENCY_API_KEY" with
    | error er => rw [hg] at ht; exact Except.noConfusion ht
    | ok k =>
      rw [hg] at ht
      simp only [Except.map] at ht
      injection ht with ht
      rw [← ht]
      exact getenvKey_ok_ne env _ k hg

/-- Witness for C8: with an empty environment, WeatherTool construction
fails with the configuration ValueError. -/
theorem toolInit_requiresCredential_witness :
    WeatherTool.init (fun _ => none) =
      .error (.valueError "WEATHER_API_KEY environment variable is not set.") :=
  (toolInit_requiresCredential (fun _ => none)).1 (Or.inl rfl)
